import Mathlib

/-!
Verification development for the cass_remote_monitor repository.

The command-dispatch layer (src/modules/telegram_monitor.py) is embedded as a
state-plus-exception monad over an explicit effect trace; the log-tailing and
formatting collaborators (src/modules/functions/log_monitor.py) and the
screenshot cleanup helper (src/modules/functions/screenshot.py) are embedded as
pure functions.  Python text is modelled as `List Char` (one `Char` per byte;
file contents are treated as ASCII so byte positions and character positions
coincide, and line boundaries are modelled as the LF character, the only line
separator occurring in the repository's data).  Python integers are `Nat`/`Int`
with Python slice semantics spelled out explicitly.
-/

abbrev Str := List Char

/-- Convert a Lean string literal to the `List Char` text model. -/
def txt (s : String) : Str := s.data

/-- Decimal rendering of a natural number, as Python `str`/f-string rendering. -/
def natStr (n : Nat) : Str := (toString n).data

/-- The backtick character (written via its code point). -/
def tickChar : Char := Char.ofNat 96

/-- The single-quote character (written via its code point). -/
def quoteChar : Char := Char.ofNat 39

/-- Python `s[:i]` for an `int` index `i` that may be negative:
a negative index counts from the end of the string, clamped at 0. -/
def pySlicePrefix (l : Str) (i : Int) : Str :=
  if 0 ≤ i then l.take i.toNat else l.take ((l.length : Int) + i).toNat

/-- Python `l[-n:]`: the last `n` elements, except that `l[-0:]` is all of `l`. -/
def pySliceLast (n : Nat) (l : List α) : List α :=
  if n = 0 then l else l.drop (l.length - n)

/-- Accumulator worker for `splitKeepEnds` (Python `readlines` splitting). -/
def skeGo (cur : Str) : Str → List Str
  | [] => if cur = [] then [] else [cur.reverse]
  | c :: rest =>
    if c = '\n' then (cur.reverse ++ ['\n']) :: skeGo [] rest
    else skeGo (c :: cur) rest

/-- Python `f.readlines()` line splitting: each line keeps its trailing
newline; a final fragment without a newline is kept as a last line. -/
def splitKeepEnds (l : Str) : List Str := skeGo [] l

/-- Accumulator worker for `splitLines` (Python `str.splitlines()`). -/
def slGo (cur : Str) : Str → List Str
  | [] => if cur = [] then [] else [cur.reverse]
  | c :: rest =>
    if c = '\n' then cur.reverse :: slGo [] rest
    else slGo (c :: cur) rest

/-- Python `str.splitlines()`: split at newlines, line terminators dropped. -/
def splitLines (l : Str) : List Str := slGo [] l

/-- Python `content.replace(3 backticks, "---")`: left-to-right,
non-overlapping replacement of each run of three consecutive backticks. -/
def replaceTicks3 : Str → Str
  | [] => []
  | c :: rest =>
    if c = tickChar ∧ rest.take 2 = [tickChar, tickChar] then
      '-' :: '-' :: '-' :: replaceTicks3 (rest.drop 2)
    else
      c :: replaceTicks3 rest
termination_by l => l.length
decreasing_by
  · simp only [List.length_cons, List.length_drop]
    omega
  · simp

/-- Python `content.replace(backtick, quote)`: single-character replacement. -/
def replaceTick1 (l : Str) : Str :=
  l.map (fun c => if c = tickChar then quoteChar else c)

/-! ## src/modules/functions/log_monitor.py -/

/-- `_get_file_tail` (log_monitor.py lines 110-146): the last `numLines` lines
of a file.  Files smaller than 10000 bytes are read whole (`readlines` and a
`lines[-num_lines:]` slice, line endings kept); larger files are read from the
estimated position `max(0, size - numLines * 100)` onwards, split into lines
without endings, and the last `numLines` of those are joined with newlines.
`max 0` is the truncating `Nat` subtraction. -/
def _get_file_tail (content : Str) (numLines : Nat) : Str :=
  if content.length < 10000 then
    (pySliceLast numLines (splitKeepEnds content)).flatten
  else
    let fileSize := content.length
    let estimatedPos := fileSize - numLines * 100
    let window := content.drop estimatedPos
    let lines := splitLines window
    List.intercalate ['\n'] (pySliceLast numLines lines)

/-- A log record produced by `get_tails` (the Python dict with its possible
keys; `hasFileName` models presence of the optional `file_name` key, the other
optional keys default to empty values). -/
structure LogRecord where
  directory : Str
  status : String
  path : Str := []
  fileName : Str := []
  hasFileName : Bool := false
  filePath : Str := []
  fileSize : Nat := 0
  modifiedTime : Str := []
  content : Str
  lineCount : Nat := 0
  errorDetail : Str := []
deriving Repr, DecidableEq

/-- One discovered `*.log` file in a monitored directory: its name, its
modification time (as a sort key and as the pre-rendered timestamp string),
its content, and whether reading it raises (`stat`/read errors inside the
per-file `try` of `get_tails`). -/
structure FileEntry where
  name : Str
  mtime : Nat
  mtimeStr : Str
  content : Str
  statError : Option Str := none
deriving Repr, DecidableEq

/-- The state of one monitored directory as observed by `get_tails`:
the directory is missing, its `logs/` subdirectory is missing, or the
`logs/` subdirectory exists and `glob` finds the given `*.log` files
(possibly none). -/
inductive DirState where
  | missing
  | noLogsSubdir
  | present (files : List FileEntry)
deriving Repr

/-- The filesystem as seen by the log monitor: the base directory path and the
state of each monitored directory, keyed by directory name. -/
structure Fs where
  base : Str
  dirs : String → DirState

/-- The monitored directories (log_monitor.py lines 23-28). -/
def targetDirs : List String :=
  ["centralizador_extract", "centralizador_transform", "smsrio", "vitai"]

/-- Rendered path of a monitored directory (`base_dir / dir_name`). -/
def dirPathStr (fs : Fs) (d : String) : Str := fs.base ++ txt "/" ++ txt d

/-- Rendered path of a monitored directory's `logs/` subdirectory. -/
def logsSubdirStr (fs : Fs) (d : String) : Str := dirPathStr fs d ++ txt "/logs"

/-- Python `sorted`/`list.sort` with `key=mtime, reverse=True`: stable
descending insertion by modification time. -/
def insertByMtimeDesc (e : FileEntry) : List FileEntry → List FileEntry
  | [] => [e]
  | x :: xs => if x.mtime < e.mtime then e :: x :: xs else x :: insertByMtimeDesc e xs

/-- Stable sort of the globbed files, most recently modified first
(log_monitor.py line 75). -/
def sortByMtimeDesc : List FileEntry → List FileEntry
  | [] => []
  | e :: rest => insertByMtimeDesc e (sortByMtimeDesc rest)

/-- The record `get_tails` appends for one readable or unreadable log file
(log_monitor.py lines 77-105). -/
def fileRecord (fs : Fs) (d : String) (numLines : Nat) (e : FileEntry) : LogRecord :=
  match e.statError with
  | some err =>
      { directory := txt d, status := "error",
        fileName := e.name, hasFileName := true,
        filePath := logsSubdirStr fs d ++ txt "/" ++ e.name,
        content := txt "❌ Erro ao ler arquivo " ++ e.name ++ txt ": " ++ err,
        errorDetail := err }
  | none =>
      let c := _get_file_tail e.content numLines
      { directory := txt d, status := "success",
        fileName := e.name, hasFileName := true,
        filePath := logsSubdirStr fs d ++ txt "/" ++ e.name,
        fileSize := e.content.length, modifiedTime := e.mtimeStr,
        content := c,
        lineCount := if c = [] then 0 else (splitLines c).length }

/-- The records `get_tails` appends for one monitored directory
(log_monitor.py lines 36-105): exactly one status record when the directory,
its `logs/` subdirectory, or any `*.log` file is missing, otherwise one record
per discovered file in descending modification-time order. -/
def dirRecords (fs : Fs) (numLines : Nat) (d : String) : List LogRecord :=
  match fs.dirs d with
  | .missing =>
      [{ directory := txt d, status := "directory_not_found",
         path := dirPathStr fs d,
         content := txt "❌ Diretório não encontrado: " ++ dirPathStr fs d }]
  | .noLogsSubdir =>
      [{ directory := txt d, status := "logs_subdir_not_found",
         path := logsSubdirStr fs d,
         content := txt "⚠️ Subpasta logs/ não encontrada em: " ++ dirPathStr fs d }]
  | .present files =>
      if files.isEmpty then
        [{ directory := txt d, status := "no_logs_found",
           path := logsSubdirStr fs d,
           content := txt "⚠️ Nenhum arquivo .log encontrado em: " ++ logsSubdirStr fs d }]
      else
        (sortByMtimeDesc files).map (fileRecord fs d numLines)

/-- `get_tails` (log_monitor.py lines 12-107): the records of all monitored
directories, in the fixed directory order. -/
def get_tails (fs : Fs) (numLines : Nat) : List LogRecord :=
  (targetDirs.map (dirRecords fs numLines)).flatten

/-- `_format_file_size` helper: round half to even, the rounding used by
IEEE-754 binary arithmetic and by Python float formatting. -/
def rhe (a b : Nat) : Nat :=
  let q := a / b
  let r := a % b
  if 2 * r < b then q else if b < 2 * r then q + 1 else if q % 2 = 0 then q else q + 1

/-- Rendering of `m / 10` with exactly one decimal digit, as Python
produces for these values: integer part, a dot, and one digit. -/
def dec1 (m : Nat) : Str := natStr (m / 10) ++ ['.'] ++ natStr (m % 10)

/-- `_format_file_size` (log_monitor.py lines 185-202).  Python computes
`size/1024` (or `1024**2`, `1024**3`) in binary floating point and renders it
with `:.1f`.  Division of a `Nat` below `2^40` by a power of two is exact in
binary floating point, and CPython's `:.1f` formatting is correctly rounded
with ties to even, so the rendered value is exactly
`rhe (10 * n) divisor / 10`, which is what this embedding computes. -/
def _format_file_size (n : Nat) : Str :=
  if n < 1024 then natStr n ++ txt " B"
  else if n < 1024 ^ 2 then dec1 (rhe (10 * n) 1024) ++ txt " KB"
  else if n < 1024 ^ 3 then dec1 (rhe (10 * n) (1024 ^ 2)) ++ txt " MB"
  else dec1 (rhe (10 * n) (1024 ^ 3)) ++ txt " GB"

/-- `max(log_files, key=mtime)`: Python `max` keeps the first of several
maxima. -/
def maxByMtime (f : FileEntry) (rest : List FileEntry) : FileEntry :=
  rest.foldl (fun a b => if a.mtime < b.mtime then b else a) f

/-- One line block of `get_logs_summary` (log_monitor.py lines 219-242). -/
def summaryLine (fs : Fs) (d : String) : Str :=
  match fs.dirs d with
  | .missing => txt "❌ `" ++ txt d ++ txt "`: Diretório não encontrado\n"
  | .noLogsSubdir => txt "⚠️ `" ++ txt d ++ txt "`: Subpasta logs/ não encontrada\n"
  | .present [] => txt "⚠️ `" ++ txt d ++ txt "`: Sem arquivos .log na pasta logs/\n"
  | .present (f :: rest) =>
      let latest := maxByMtime f rest
      txt "✅ `" ++ txt d ++ txt "`: " ++ natStr (f :: rest).length ++ txt " arquivo(s)\n"
        ++ txt "   📄 Mais recente: `" ++ latest.name ++ txt "`\n"
        ++ txt "   📅 Modificado: " ++ latest.mtimeStr ++ txt "\n\n"

/-- `get_logs_summary` (log_monitor.py lines 205-244). -/
def get_logs_summary (fs : Fs) : Str :=
  txt "📋 **Resumo dos Diretórios de Log**\n\n"
    ++ (targetDirs.map (summaryLine fs)).flatten

/-- The header block of the per-file message built by
`format_log_results_for_telegram` for a success record
(log_monitor.py lines 284-288). -/
def successHeader (r : LogRecord) : Str :=
  txt "📄 " ++ r.directory ++ txt " - " ++ r.fileName ++ txt "\n\n"
    ++ txt "📅 Modificado: " ++ r.modifiedTime ++ txt "\n"
    ++ txt "📊 Tamanho: " ++ _format_file_size r.fileSize ++ txt "\n"
    ++ txt "📝 Linhas mostradas: " ++ natStr r.lineCount ++ txt "\n\n"
    ++ txt "───────────────────────────────\n"

/-- The complete message built for one success record
(log_monitor.py lines 281-303): header, then the tail content truncated to the
available space (`max_message_length - len(header) - 20`, a Python `int` that
can be negative, in which case the slice drops characters from the end), with
a truncation marker appended when truncation happens, and with backtick
sequences replaced afterwards. -/
def fmtSuccess (r : LogRecord) (maxLen : Nat) : Str :=
  let header := successHeader r
  let avail : Int := (maxLen : Int) - header.length - 20
  let content :=
    if avail < (r.content.length : Int) then
      pySlicePrefix r.content avail ++ txt "\n... (truncado)"
    else r.content
  let content := replaceTick1 (replaceTicks3 content)
  header ++ content

/-- The message built for one record, if any: the `if`/`elif` chain of
`format_log_results_for_telegram` (log_monitor.py lines 281-318); a record
with an unrecognized status produces no message. -/
def fmtRecord (maxLen : Nat) (r : LogRecord) : Option Str :=
  if r.status = "success" then
    some (fmtSuccess r maxLen)
  else if r.status = "directory_not_found" ∨ r.status = "logs_subdir_not_found"
      ∨ r.status = "no_logs_found" then
    some (txt "⚠️ " ++ r.directory ++ txt "\n\n" ++ r.content)
  else if r.status = "error" then
    some (txt "❌ " ++ r.directory
      ++ (if r.hasFileName then txt " - " ++ r.fileName else [])
      ++ txt "\n\n" ++ r.content)
  else none

/-- The message list built by the loop of `format_log_results_for_telegram`
before the empty-list fallback check. -/
def formatCore (maxLen : Nat) : List LogRecord → List Str
  | [] => []
  | r :: rest =>
    match fmtRecord maxLen r with
    | some m => m :: formatCore maxLen rest
    | none => formatCore maxLen rest

/-- The fallback message of `format_log_results_for_telegram`
(log_monitor.py line 322). -/
def noLogsFallback : Str := txt "⚠️ Nenhum log encontrado nos diretórios monitorados."

/-- `format_log_results_for_telegram` (log_monitor.py lines 266-324). -/
def format_log_results_for_telegram (results : List LogRecord) (maxLen : Nat := 4000) :
    List Str :=
  let messages := formatCore maxLen results
  if messages.isEmpty then [noLogsFallback] else messages

/-! ## The Router monad

Handlers of src/modules/telegram_monitor.py are `async` functions whose
observable behaviour is a sequence of effects (transport sends, provider
invocations, log lines, file removals, pacing sleeps) together with Python's
exception control flow.  They are embedded into a state-plus-exception monad:
the state carries the number of transport send attempts made so far (so that
the environment can decide the outcome of each attempt independently), the set
of files existing on disk, and the effect trace; the `Except` component models
a propagating Python exception carrying its message. -/

/-- One observable effect of a handler. -/
inductive Eff where
  | sendText (msg : Str)
  | sendPhoto (caption : Str)
  | provider (name : String)
  | triggerInvoke (name : String)
  | removeFile (path : String)
  | logInfo (tag : String)
  | logWarn (tag : String)
  | logError (tag : String)
  | sleep
deriving Repr, DecidableEq

/-- Handler state: send-attempt counter, the files existing on disk
(as a Boolean membership function), and the effect trace so far. -/
structure S where
  k : Nat
  files : String → Bool
  trace : List Eff

/-- The handler monad: state plus Python exceptions. -/
def M (α : Type) := S → S × Except String α

/-- Initial handler state over a given disk. -/
def initS (files : String → Bool) : S := ⟨0, files, []⟩

def mret (a : α) : M α := fun s => (s, .ok a)

def mbind (x : M α) (f : α → M β) : M β := fun s =>
  match x s with
  | (s', .ok a) => f a s'
  | (s', .error e) => (s', .error e)

instance : Monad M where
  pure := mret
  bind := mbind

@[simp] theorem bind_def (x : M α) (f : α → M β) : (x >>= f) = mbind x f := rfl

@[simp] theorem pure_def (a : α) : (pure a : M α) = mret a := rfl

/-- Python `try`/`except Exception as e` (and the bare `except:`, which for
the exceptions arising here behaves identically): run the body; on an
exception run the except-branch on the already-updated state. -/
def tryE (x : M α) (h : String → M α) : M α := fun s =>
  match x s with
  | (s', .ok a) => (s', .ok a)
  | (s', .error e) => h e s'

/-- Python `try`/`except: pass`. -/
def tryPass (x : M Unit) : M Unit := tryE x (fun _ => mret ())

/-- Python `try`/`finally`: the cleanup runs on both exits; an exception in
the cleanup replaces the in-flight result. -/
def tryFinallyE (x : M α) (fin : M Unit) : M α := fun s =>
  match x s with
  | (s', .ok a) =>
    match fin s' with
    | (s'', .ok _) => (s'', .ok a)
    | (s'', .error e) => (s'', .error e)
  | (s', .error e) =>
    match fin s' with
    | (s'', .ok _) => (s'', .error e)
    | (s'', .error e2) => (s'', .error e2)

/-- Record an effect. -/
def emit (e : Eff) : M Unit := fun s =>
  ({ s with trace := s.trace ++ [e] }, .ok ())

def logI (t : String) : M Unit := emit (.logInfo t)
def logW (t : String) : M Unit := emit (.logWarn t)
def logE (t : String) : M Unit := emit (.logError t)

/-- Set or clear existence of one path on disk. -/
def setFile (f : String → Bool) (p : String) (b : Bool) : String → Bool :=
  fun q => if q = p then b else f q

/-- Everything the handlers observe from outside the Router: the message's
chat identifier and text, the outcome of each transport send attempt (the
`k`-th attempt raises the given exception when `some`), the results of the
capability providers, and the filesystem state seen by the log monitor.
Provider outcomes are adversarial inputs: a provider that the source makes
total simply never produces the raising outcome in real runs, and every
theorem quantifying over `Env` covers that case a fortiori. -/
structure ZellijInfo where
  sessions : Option Str
  layout : Option Str

structure Env where
  chatId : String
  text : Str
  sendExn : Nat → Option String
  screenshotRes : Option String
  wslRes : Option String
  wslFileExists : Bool
  zellijRes : ZellijInfo
  statusRes : Except String Str
  trigExn : String → Option String
  fs : Fs

/-- The Router's own configuration: the one authorized chat identifier and the
registered free-text triggers (substring, handler), in registration order
(`TelegramMonitor.__init__`, telegram_monitor.py lines 37-51). -/
structure Monitor where
  chat_id : String
  triggers : List (Str × String)

/-- A transport send of a text message (`update.message.reply_text`): the
attempt is always recorded as an outbound send; the environment decides
whether this, the `k`-th, attempt raises. -/
def sendText (env : Env) (m : Str) : M Unit := fun s =>
  ({ s with k := s.k + 1, trace := s.trace ++ [.sendText m] },
   match env.sendExn s.k with
   | none => .ok ()
   | some e => .error e)

/-- A transport send of a photo (`open(path)` plus `reply_photo`): one send
attempt on the shared attempt counter. -/
def sendPhoto (env : Env) (cap : Str) : M Unit := fun s =>
  ({ s with k := s.k + 1, trace := s.trace ++ [.sendPhoto cap] },
   match env.sendExn s.k with
   | none => .ok ()
   | some e => .error e)

/-- `asyncio.sleep(0.5)` between log sends. -/
def sleepE : M Unit := emit .sleep

/-- `ping_response()` (functions/ping.py): a total provider returning the
fixed text. -/
def ping_response (_ : Env) : M Str := fun s =>
  ({ s with trace := s.trace ++ [.provider "ping_response"] }, .ok (txt "Pong! 🏓"))

/-- `system_status()` (functions/system_status.py): a text provider; the
environment supplies its outcome. -/
def system_status (env : Env) : M Str := fun s =>
  ({ s with trace := s.trace ++ [.provider "system_status"] }, env.statusRes)

/-- `take_screenshot()` (functions/screenshot.py lines 14-42): total (its body
is wrapped in a catch-all returning `None`); on success the returned temporary
file has just been created on disk (every success path of the source either
saved the file or checked `os.path.exists` before returning the path). -/
def take_screenshot (env : Env) : M (Option String) := fun s =>
  match env.screenshotRes with
  | some p =>
      ({ s with files := setFile s.files p true,
                trace := s.trace ++ [.provider "take_screenshot"] }, .ok (some p))
  | none => ({ s with trace := s.trace ++ [.provider "take_screenshot"] }, .ok none)

/-- `cleanup_screenshot(filepath)` (functions/screenshot.py lines 169-181):
if the path is truthy and the file exists, remove it; any error is swallowed;
total in all cases. -/
def cleanup_screenshot (p : String) : M Unit := fun s =>
  if p ≠ "" ∧ s.files p = true then
    ({ s with files := setFile s.files p false, trace := s.trace ++ [.removeFile p] },
     .ok ())
  else (s, .ok ())

/-- `wsl_screenshot()` (functions/wsl_screenshot.py lines 13-28): total (its
body is wrapped in a catch-all returning `None`); whether the returned path
exists on disk is environment-determined (the from-Windows variant returns a
translated path that the handler's existence check may not find). -/
def wsl_screenshot (env : Env) : M (Option String) := fun s =>
  match env.wslRes with
  | some p =>
      ({ s with files := if env.wslFileExists then setFile s.files p true else s.files,
                trace := s.trace ++ [.provider "wsl_screenshot"] }, .ok (some p))
  | none => ({ s with trace := s.trace ++ [.provider "wsl_screenshot"] }, .ok none)

/-- `cleanup_wsl_screenshot(filepath)` (functions/wsl_screenshot.py lines
318-330): identical structure to `cleanup_screenshot`. -/
def cleanup_wsl_screenshot (p : String) : M Unit := fun s =>
  if p ≠ "" ∧ s.files p = true then
    ({ s with files := setFile s.files p false, trace := s.trace ++ [.removeFile p] },
     .ok ())
  else (s, .ok ())

/-- `capture_zellij_sessions()` (functions/wsl_screenshot.py lines 222-261):
total (catch-all returning `{}`); the dict is modelled by its two optional
keys. -/
def capture_zellij_sessions (env : Env) : M ZellijInfo := fun s =>
  ({ s with trace := s.trace ++ [.provider "capture_zellij_sessions"] },
   .ok env.zellijRes)

/-- `os.path.exists` as used by `_handle_wsl_screenshot`. -/
def pathExists (p : String) : M Bool := fun s => (s, .ok (s.files p))

/-- `get_logs_summary()` as invoked by `_handle_logs`. -/
def get_logs_summaryM (env : Env) : M Str := fun s =>
  ({ s with trace := s.trace ++ [.provider "get_logs_summary"] },
   .ok (get_logs_summary env.fs))

/-- `get_tails(15)` as invoked by `_handle_logs`. -/
def get_tailsM (env : Env) (n : Nat) : M (List LogRecord) := fun s =>
  ({ s with trace := s.trace ++ [.provider "get_tails"] }, .ok (get_tails env.fs n))

/-- Invocation of one registered free-text trigger handler; the environment
decides whether the (arbitrary, externally supplied) handler raises. -/
def invokeTrigger (env : Env) (name : String) : M Unit := fun s =>
  ({ s with trace := s.trace ++ [.triggerInvoke name] },
   match env.trigExn name with
   | none => .ok ()
   | some e => .error e)

/-! ## src/modules/telegram_monitor.py handlers -/

/-- `TelegramMonitor._handle_ping` (telegram_monitor.py lines 81-100). -/
def handlePing (self : Monitor) (env : Env) : M Unit :=
  tryE
    (if env.chatId = self.chat_id then do
       let response ← ping_response env
       sendText env response
       logI "ping answered"
     else
       logW "ping unauthorized")
    (fun _ => logE "ping handler error")

/-- `TelegramMonitor._handle_status` (telegram_monitor.py lines 102-135). -/
def handleStatus (self : Monitor) (env : Env) : M Unit :=
  tryE
    (if env.chatId = self.chat_id then do
       logI "status requested"
       let report ← system_status env
       sendText env report
       logI "status sent"
     else
       logW "status unauthorized")
    (fun _ => do
       logE "status handler error"
       tryPass (sendText env (txt "❌ Erro ao obter status do sistema. Tente novamente.")))

/-- `TelegramMonitor._handle_screenshot` (telegram_monitor.py lines 137-188).
The `if screenshot_path:` test is Python truthiness, false for `None` and for
the empty string. -/
def handleScreenshot (self : Monitor) (env : Env) : M Unit :=
  tryE
    (if env.chatId = self.chat_id then do
       logI "screenshot requested"
       sendText env (txt "📸 Capturando screenshot...")
       let path? ← take_screenshot env
       match path? with
       | some p =>
         if p = "" then do
           sendText env (txt "❌ Erro ao capturar screenshot. Verifique as dependências.")
           logE "screenshot capture failed"
         else
           tryFinallyE
             (do sendPhoto env (txt "📸 Screenshot capturada!")
                 logI "screenshot sent")
             (cleanup_screenshot p)
       | none => do
         sendText env (txt "❌ Erro ao capturar screenshot. Verifique as dependências.")
         logE "screenshot capture failed"
     else
       logW "screenshot unauthorized")
    (fun _ => do
       logE "screenshot handler error"
       tryPass (sendText env (txt "❌ Erro ao capturar screenshot. Tente novamente.")))

/-- The fallback message of `_handle_wsl_screenshot` built from the Zellij
info dict (telegram_monitor.py lines 229-234). -/
def zellijMessage (z : ZellijInfo) : Str :=
  txt "❌ Screenshot WSL falhou, mas capturei info do Zellij:\n\n"
    ++ (match z.sessions with
        | some sess => txt "**Sessões Ativas:**\n```\n" ++ sess ++ txt "\n```\n"
        | none => [])
    ++ (match z.layout with
        | some lay => txt "**Layout Atual:**\n```\n" ++ lay.take 500 ++ txt "...\n```"
        | none => [])

/-- `TelegramMonitor._handle_wsl_screenshot` (telegram_monitor.py lines
190-257). -/
def handleWslScreenshot (self : Monitor) (env : Env) : M Unit :=
  tryE
    (if env.chatId = self.chat_id then do
       logI "wsl screenshot requested"
       sendText env (txt "🐧 Capturando screenshot via WSL...")
       let path? ← wsl_screenshot env
       match path? with
       | some p =>
         if p = "" then wslFailBranch env
         else
           tryFinallyE
             (tryE
               (do let ex ← pathExists p
                   if ex then do
                     sendPhoto env (txt "🐧 Screenshot WSL capturada!")
                     logI "wsl screenshot sent"
                   else
                     sendText env (txt "❌ Arquivo de screenshot não encontrado."))
               (fun _ => do
                   logE "wsl send error"
                   sendText env (txt "❌ Erro ao enviar screenshot.")))
             (cleanup_wsl_screenshot p)
       | none => wslFailBranch env
     else
       logW "wsl screenshot unauthorized")
    (fun _ => do
       logE "wsl handler error"
       tryPass (sendText env (txt "❌ Erro ao capturar screenshot WSL. Tente novamente.")))
where
  /-- The `else` branch for a falsy screenshot path (telegram_monitor.py lines
  225-243): try the Zellij fallback, else send the fixed diagnosis text. -/
  wslFailBranch (env : Env) : M Unit := do
    let z ← capture_zellij_sessions env
    if z.sessions.isSome || z.layout.isSome then
      sendText env (zellijMessage z)
    else
      sendText env (txt "❌ Falha ao capturar screenshot WSL. Verifique:\n• Se está rodando no WSL\n• Se X11 ou Wayland estão configurados\n• Se ferramentas de screenshot estão instaladas\n• Se o Windows não está bloqueado")
    logE "wsl capture failed"

/-- The truncated retry message of the log delivery loop
(telegram_monitor.py line 297). -/
def retryMsg (e : String) (m : Str) : Str :=
  txt "❌ Erro ao enviar log: " ++ txt e ++ txt "\n\n" ++ m.take 500 ++ txt "..."

/-- The critical-error message of the log delivery loop
(telegram_monitor.py line 301). -/
def critMsg (e : String) : Str := txt "❌ Erro crítico ao enviar log: " ++ txt e

/-- The multi-message log delivery loop (telegram_monitor.py lines 287-302):
send each message and pace; on a send failure retry once with a truncated
form; if that also fails send a critical-error notice — that last send is not
guarded, so its failure propagates out of the loop. -/
def sendLogLoop (env : Env) : List Str → M Unit
  | [] => mret ()
  | m :: rest => do
    tryE
      (do sendText env m
          sleepE)
      (fun e =>
        tryE
          (sendText env (retryMsg e m))
          (fun _ => sendText env (critMsg e)))
    sendLogLoop env rest

/-- `TelegramMonitor._handle_logs` (telegram_monitor.py lines 259-319). -/
def handleLogs (self : Monitor) (env : Env) : M Unit :=
  tryE
    (if env.chatId = self.chat_id then do
       logI "logs requested"
       sendText env (txt "📋 Buscando logs dos diretórios...")
       let summary ← get_logs_summaryM env
       sendText env summary
       let logs ← get_tailsM env 15
       if logs.isEmpty then
         sendText env (txt "❌ Nenhum log encontrado.")
       else do
         let messages := format_log_results_for_telegram logs
         sendLogLoop env messages
         logI "logs sent"
     else
       logW "logs unauthorized")
    (fun _ => do
       logE "logs handler error"
       tryPass (sendText env (txt "❌ Erro ao buscar logs. Tente novamente.")))

/-- Python `str.lower()` on the ASCII texts modelled here. -/
def pyLower (l : Str) : Str := l.map Char.toLower

/-- Python `str.strip()`: drop leading and trailing whitespace. -/
def pyStrip (l : Str) : Str :=
  ((l.dropWhile Char.isWhitespace).reverse.dropWhile Char.isWhitespace).reverse

/-- The free-text trigger loop of `_handle_message` (telegram_monitor.py lines
339-342): for each registered trigger, in registration order, if its substring
occurs in the lowercased stripped text, invoke its handler and log. -/
def triggerLoop (env : Env) (low : Str) : List (Str × String) → M Unit
  | [] => mret ()
  | (pat, h) :: rest => do
    if decide (pat <:+: low) then do
      invokeTrigger env h
      logI ("trigger fired: " ++ h)
    else mret ()
    triggerLoop env low rest

/-- `TelegramMonitor._handle_message` (telegram_monitor.py lines 321-345): the
free-text path; an unauthorized chat returns before any logging. -/
def handleMessage (self : Monitor) (env : Env) : M Unit :=
  tryE
    (if env.chatId ≠ self.chat_id then mret ()
     else do
       logI "message received"
       let low := pyLower (pyStrip env.text)
       triggerLoop env low self.triggers)
    (fun _ => logE "message handler error")

/-! ## Framework lemmas -/

/-- A computation that never raises, whatever the state. -/
def okM (x : M Unit) : Prop := ∀ s, (x s).2 = Except.ok ()

theorem okM_mret : okM (mret ()) := fun _ => rfl

theorem okM_emit (e : Eff) : okM (emit e) := fun _ => rfl

theorem okM_tryPass (x : M Unit) : okM (tryPass x) := by
  intro s
  unfold tryPass tryE
  rcases h : x s with ⟨s', r⟩
  cases r <;> simp [mret]

theorem okM_bind (x : M Unit) (f : Unit → M Unit) (hx : okM x) (hf : okM (f ()))
    : okM (mbind x f) := by
  intro s
  unfold mbind
  rcases h : x s with ⟨s', r⟩
  cases r with
  | ok a => exact hf s'
  | error e => have := hx s; rw [h] at this; simp at this

theorem tryE_ok (x : M Unit) (r : String → M Unit) (hr : ∀ e, okM (r e))
    : okM (tryE x r) := by
  intro s
  unfold tryE
  rcases h : x s with ⟨s', res⟩
  cases res with
  | ok a => rfl
  | error e => exact hr e s'

/-- Effects that send something outbound or invoke a capability provider or a
trigger handler. -/
def isOutput : Eff → Bool
  | .sendText _ => true
  | .sendPhoto _ => true
  | .provider _ => true
  | .triggerInvoke _ => true
  | _ => false

/-! ## Claims C5 and C1 -/

/-- C5: for every inbound message and every environment (covering any
combination of provider results, provider exceptions, send exceptions and
trigger-handler exceptions), each of the six embedded handler functions of the
Router returns normally: no exception raised by a capability provider or by a
transport send propagates out of a handler, so none can terminate the run
loop. -/
theorem claim_C5_handlers_total (self : Monitor) (env : Env) (s : S) :
    (handlePing self env s).2 = Except.ok () ∧
    (handleStatus self env s).2 = Except.ok () ∧
    (handleScreenshot self env s).2 = Except.ok () ∧
    (handleWslScreenshot self env s).2 = Except.ok () ∧
    (handleLogs self env s).2 = Except.ok () ∧
    (handleMessage self env s).2 = Except.ok () := by
  refine ⟨?_, ?_, ?_, ?_, ?_, ?_⟩
  · exact tryE_ok _ _ (fun e => okM_emit _) s
  · exact tryE_ok _ _ (fun e => okM_bind _ _ (okM_emit _) (okM_tryPass _)) s
  · exact tryE_ok _ _ (fun e => okM_bind _ _ (okM_emit _) (okM_tryPass _)) s
  · exact tryE_ok _ _ (fun e => okM_bind _ _ (okM_emit _) (okM_tryPass _)) s
  · exact tryE_ok _ _ (fun e => okM_bind _ _ (okM_emit _) (okM_tryPass _)) s
  · exact tryE_ok _ _ (fun e => okM_emit _) s

/-- C1: an inbound message whose chat identifier differs (as a string) from
the configured authorized chat identifier produces no outbound send, no
capability-provider invocation and no trigger invocation, in any of the five
command handlers and in the free-text path. -/
theorem claim_C1_unauthorized_chat_dropped (self : Monitor) (env : Env)
    (f : String → Bool) (hne : env.chatId ≠ self.chat_id) :
    ((handlePing self env (initS f)).1.trace.filter isOutput = []) ∧
    ((handleStatus self env (initS f)).1.trace.filter isOutput = []) ∧
    ((handleScreenshot self env (initS f)).1.trace.filter isOutput = []) ∧
    ((handleWslScreenshot self env (initS f)).1.trace.filter isOutput = []) ∧
    ((handleLogs self env (initS f)).1.trace.filter isOutput = []) ∧
    ((handleMessage self env (initS f)).1.trace.filter isOutput = []) := by
  refine ⟨?_, ?_, ?_, ?_, ?_, ?_⟩
  · simp [handlePing, tryE, logW, emit, initS, if_neg hne, isOutput]
  · simp [handleStatus, tryE, logW, emit, initS, if_neg hne, isOutput]
  · simp [handleScreenshot, tryE, logW, emit, initS, if_neg hne, isOutput]
  · simp [handleWslScreenshot, tryE, logW, emit, initS, if_neg hne, isOutput]
  · simp [handleLogs, tryE, logW, emit, initS, if_neg hne, isOutput]
  · simp [handleMessage, tryE, mret, initS, if_pos hne]

/-- Witness for C1 at a concrete unauthorized message. -/
def envA : Env :=
  { chatId := "999", text := txt "hello",
    sendExn := fun _ => none, screenshotRes := none, wslRes := none,
    wslFileExists := false, zellijRes := ⟨none, none⟩,
    statusRes := Except.ok (txt "ok"), trigExn := fun _ => none,
    fs := ⟨txt "/base", fun _ => DirState.missing⟩ }

def monitorA : Monitor := { chat_id := "123", triggers := [] }

theorem claim_C1_witness :
    ((handlePing monitorA envA (initS (fun _ => false))).1.trace.filter isOutput = []) ∧
    ((handleStatus monitorA envA (initS (fun _ => false))).1.trace.filter isOutput = []) ∧
    ((handleScreenshot monitorA envA (initS (fun _ => false))).1.trace.filter isOutput = []) ∧
    ((handleWslScreenshot monitorA envA (initS (fun _ => false))).1.trace.filter isOutput = []) ∧
    ((handleLogs monitorA envA (initS (fun _ => false))).1.trace.filter isOutput = []) ∧
    ((handleMessage monitorA envA (initS (fun _ => false))).1.trace.filter isOutput = []) :=
  claim_C1_unauthorized_chat_dropped monitorA envA (fun _ => false) (by decide)

/-- A guarded send (`try`/`except: pass`) records the attempt, consumes one
attempt slot, and never raises, whatever the attempt's outcome. -/
theorem tryPass_sendText (env : Env) (m : Str) (s : S) :
    tryPass (sendText env m) s =
      ({ s with k := s.k + 1, trace := s.trace ++ [.sendText m] }, Except.ok ()) := by
  unfold tryPass tryE sendText mret
  cases env.sendExn s.k <;> simp

/-! ## Claim C4 -/

/-- C4: on an authorized `/screenshot` invocation whose capture provider
returns a (nonempty) temporary path that is fresh on disk, the handler
terminates with that file absent from disk whatever the outcomes of the three
possible send attempts (including exceptions), the handler's whole trace
removes the file at most once, and the cleanup helper run on any state where
the path is absent is a no-op returning normally. -/
theorem claim_C4_screenshot_cleanup (self : Monitor) (env : Env)
    (f : String → Bool) (p : String)
    (hauth : env.chatId = self.chat_id) (hres : env.screenshotRes = some p)
    (hp : p ≠ "") (hfresh : f p = false) :
    ((handleScreenshot self env (initS f)).1.files p = false) ∧
    ((handleScreenshot self env (initS f)).1.trace.count (Eff.removeFile p) ≤ 1) ∧
    (∀ s : S, s.files p = false → cleanup_screenshot p s = (s, Except.ok ())) := by
  refine ⟨?_, ?_, ?_⟩ <;>
    [skip; skip;
     exact fun s hs => by unfold cleanup_screenshot; rw [if_neg (by simp [hs])]] <;>
  unfold handleScreenshot tryE <;>
  rcases h0 : env.sendExn 0 with _ | e0 <;>
  rcases h1 : env.sendExn 1 with _ | e1 <;>
  rcases h2 : env.sendExn 2 with _ | e2 <;>
  simp [h0, h1, h2, tryFinallyE, tryPass, tryE, sendText, sendPhoto, take_screenshot,
    cleanup_screenshot, logI, logE, logW, emit, mret, mbind, initS, hauth, hres, hp,
    hfresh, setFile, List.count_cons]

/-- Concrete authorized environment for the C4 witness. -/
def envC4 : Env :=
  { chatId := "123", text := txt "",
    sendExn := fun _ => none, screenshotRes := some "/tmp/screenshot_1.png",
    wslRes := none, wslFileExists := false, zellijRes := ⟨none, none⟩,
    statusRes := Except.ok (txt "ok"), trigExn := fun _ => none,
    fs := ⟨txt "/base", fun _ => DirState.missing⟩ }

theorem claim_C4_witness :
    ((handleScreenshot monitorA envC4 (initS (fun _ => false))).1.files
        "/tmp/screenshot_1.png" = false) ∧
    ((handleScreenshot monitorA envC4 (initS (fun _ => false))).1.trace.count
        (Eff.removeFile "/tmp/screenshot_1.png") ≤ 1) ∧
    (∀ s : S, s.files "/tmp/screenshot_1.png" = false →
        cleanup_screenshot "/tmp/screenshot_1.png" s = (s, Except.ok ())) :=
  claim_C4_screenshot_cleanup monitorA envC4 (fun _ => false) "/tmp/screenshot_1.png"
    rfl rfl (by decide) rfl

/-! ## Claim C7 -/

/-- The triggers whose substring occurs in the lowercased stripped text,
in registration order. -/
def firedTriggers (low : Str) (ts : List (Str × String)) : List (Str × String) :=
  ts.filter (fun t => decide (t.1 <:+: low))

/-- The effects the trigger loop produces when no handler raises. -/
def trigEffs (low : Str) (ts : List (Str × String)) : List Eff :=
  ((firedTriggers low ts).map
    (fun t => [Eff.triggerInvoke t.2, Eff.logInfo ("trigger fired: " ++ t.2)])).flatten

/-- When no trigger handler raises, the trigger loop fires exactly the
matching triggers, once each, in registration order, and returns normally. -/
theorem triggerLoop_ok (env : Env) (low : Str) (hok : ∀ n, env.trigExn n = none) :
    ∀ (ts : List (Str × String)) (s : S),
      triggerLoop env low ts s =
        ({ s with trace := s.trace ++ trigEffs low ts }, Except.ok ()) := by
  intro ts
  induction ts with
  | nil => intro s; simp [triggerLoop, mret, trigEffs, firedTriggers]
  | cons t rest ih =>
    intro s
    rcases t with ⟨pat, h⟩
    by_cases hmatch : pat <:+: low
    · simp [triggerLoop, mbind, invokeTrigger, logI, emit, mret, hok, hmatch, ih,
        trigEffs, firedTriggers]
    · simp [triggerLoop, mbind, invokeTrigger, logI, emit, mret, hok, hmatch, ih,
        trigEffs, firedTriggers]

/-- Effects that are outbound transport sends. -/
def isSendEff : Eff → Bool
  | .sendText _ => true
  | .sendPhoto _ => true
  | _ => false

/-- Effects that are trigger-handler invocations. -/
def isTrigEff : Eff → Bool
  | .triggerInvoke _ => true
  | _ => false

/-- The trace of the trigger loop contains no outbound sends. -/
theorem trigEffs_no_sends (low : Str) (ts : List (Str × String)) :
    (trigEffs low ts).filter isSendEff = [] := by
  unfold trigEffs
  induction firedTriggers low ts with
  | nil => simp
  | cons t rest ih => simp [isSendEff, ih]

/-- C7 (amended): on an authorized free-text message, provided no invoked
trigger handler raises, the Router invokes the handler of every registered
trigger whose substring occurs in the lowercased stripped text, exactly once
each, in registration order, and produces no outbound send of its own; a
message matching no trigger causes zero invocations.  (The amendment adds the
no-raise proviso: an exception from an earlier matching handler aborts the
remaining triggers, see the counterexample.) -/
theorem claim_C7_trigger_dispatch (self : Monitor) (env : Env) (f : String → Bool)
    (hauth : env.chatId = self.chat_id) (hok : ∀ n, env.trigExn n = none) :
    ((handleMessage self env (initS f)).1.trace =
      Eff.logInfo "message received" ::
        trigEffs (pyLower (pyStrip env.text)) self.triggers) ∧
    ((handleMessage self env (initS f)).1.trace.filter isTrigEff =
      (firedTriggers (pyLower (pyStrip env.text)) self.triggers).map
        (fun t => Eff.triggerInvoke t.2)) ∧
    ((handleMessage self env (initS f)).1.trace.filter isSendEff = []) ∧
    (firedTriggers (pyLower (pyStrip env.text)) self.triggers = [] →
      (handleMessage self env (initS f)).1.trace = [Eff.logInfo "message received"]) := by
  have hrun : handleMessage self env (initS f) =
      (⟨0, f, Eff.logInfo "message received" ::
          trigEffs (pyLower (pyStrip env.text)) self.triggers⟩, Except.ok ()) := by
    unfold handleMessage tryE
    simp [hauth, mbind, logI, emit, mret, triggerLoop_ok env _ hok, initS]
  refine ⟨by rw [hrun], ?_, ?_, ?_⟩
  · rw [hrun]
    simp only [isTrigEff, List.filter_cons]
    simp only [trigEffs]
    induction firedTriggers (pyLower (pyStrip env.text)) self.triggers with
    | nil => simp
    | cons t rest ih => simpa [isTrigEff] using ih
  · rw [hrun]
    simpa [isSendEff] using trigEffs_no_sends (pyLower (pyStrip env.text)) self.triggers
  · intro hempty
    rw [hrun]
    simp [trigEffs, hempty]

/-- Concrete setup for the C7 counterexample: two registered triggers whose
substrings both occur in the message text; the first handler raises. -/
def monitorC7 : Monitor :=
  { chat_id := "123", triggers := [(txt "alpha", "h1"), (txt "beta", "h2")] }

def envC7 : Env :=
  { chatId := "123", text := txt "alpha beta",
    sendExn := fun _ => none, screenshotRes := none, wslRes := none,
    wslFileExists := false, zellijRes := ⟨none, none⟩,
    statusRes := Except.ok (txt "ok"),
    trigExn := fun n => if n = "h1" then some "boom" else none,
    fs := ⟨txt "/base", fun _ => DirState.missing⟩ }

/-- C7 counterexample: the claim as stated fails on the code.  Both registered
triggers match the text "alpha beta", yet when the first matching handler
raises, the loop is aborted by the handler-level `except` and the second
matching trigger is never invoked — not every matching trigger fires. -/
theorem claim_C7_counterexample :
    ((txt "beta") <:+: pyLower (pyStrip envC7.text)) ∧
    (txt "beta", "h2") ∈ monitorC7.triggers ∧
    Eff.triggerInvoke "h2" ∉
      (handleMessage monitorC7 envC7 (initS (fun _ => false))).1.trace ∧
    (handleMessage monitorC7 envC7 (initS (fun _ => false))).1.trace =
      [Eff.logInfo "message received", Eff.triggerInvoke "h1",
       Eff.logError "message handler error"] := by
  refine ⟨by decide, by decide, ?_, ?_⟩ <;> decide

/-- Witness for the amended C7 on a concrete matching message with
non-raising handlers. -/
def envC7ok : Env :=
  { chatId := "123", text := txt "  Alpha beta ",
    sendExn := fun _ => none, screenshotRes := none, wslRes := none,
    wslFileExists := false, zellijRes := ⟨none, none⟩,
    statusRes := Except.ok (txt "ok"), trigExn := fun _ => none,
    fs := ⟨txt "/base", fun _ => DirState.missing⟩ }

theorem claim_C7_witness :
    ((handleMessage monitorC7 envC7ok (initS (fun _ => false))).1.trace =
      Eff.logInfo "message received" ::
        trigEffs (pyLower (pyStrip envC7ok.text)) monitorC7.triggers) ∧
    ((handleMessage monitorC7 envC7ok (initS (fun _ => false))).1.trace.filter isTrigEff =
      (firedTriggers (pyLower (pyStrip envC7ok.text)) monitorC7.triggers).map
        (fun t => Eff.triggerInvoke t.2)) ∧
    ((handleMessage monitorC7 envC7ok (initS (fun _ => false))).1.trace.filter isSendEff = []) ∧
    (firedTriggers (pyLower (pyStrip envC7ok.text)) monitorC7.triggers = [] →
      (handleMessage monitorC7 envC7ok (initS (fun _ => false))).1.trace =
        [Eff.logInfo "message received"]) :=
  claim_C7_trigger_dispatch monitorC7 envC7ok (fun _ => false) rfl (fun _ => rfl)

/-! ## Claim C10 -/

theorem length_insertByMtimeDesc (e : FileEntry) (l : List FileEntry) :
    (insertByMtimeDesc e l).length = l.length + 1 := by
  induction l with
  | nil => rfl
  | cons x xs ih =>
    unfold insertByMtimeDesc
    by_cases h : x.mtime < e.mtime <;> simp [h, ih]

theorem length_sortByMtimeDesc (l : List FileEntry) :
    (sortByMtimeDesc l).length = l.length := by
  induction l with
  | nil => rfl
  | cons e rest ih => simp [sortByMtimeDesc, length_insertByMtimeDesc, ih]

/-- Each monitored directory contributes at least one record. -/
theorem dirRecords_ne_nil (fs : Fs) (n : Nat) (d : String) :
    dirRecords fs n d ≠ [] := by
  unfold dirRecords
  cases h : fs.dirs d with
  | missing => simp
  | noLogsSubdir => simp
  | present files =>
    cases files with
    | nil => simp
    | cons e rest =>
      simp only [List.isEmpty_cons, Bool.false_eq_true, if_false, ne_eq,
        List.map_eq_nil_iff]
      intro hc
      have := length_sortByMtimeDesc (e :: rest)
      rw [hc] at this
      simp at this

/-- Every record produced by `dirRecords` is rendered by the formatter. -/
theorem fmtRecord_dirRecords_isSome (fs : Fs) (n maxLen : Nat) (d : String) :
    ∀ r ∈ dirRecords fs n d, (fmtRecord maxLen r).isSome := by
  intro r hr
  unfold dirRecords at hr
  cases h : fs.dirs d with
  | missing => rw [h] at hr; simp at hr; simp [hr, fmtRecord]
  | noLogsSubdir => rw [h] at hr; simp at hr; simp [hr, fmtRecord]
  | present files =>
    rw [h] at hr
    cases files with
    | nil => simp at hr; simp [hr, fmtRecord]
    | cons e rest =>
      simp only [List.isEmpty_cons, Bool.false_eq_true, if_false, List.mem_map] at hr
      obtain ⟨x, _, hx⟩ := hr
      subst hx
      unfold fileRecord
      cases x.statError <;> simp [fmtRecord]

/-- The formatter renders one message per record whose status it knows. -/
theorem formatCore_length (maxLen : Nat) :
    ∀ l : List LogRecord, (∀ r ∈ l, (fmtRecord maxLen r).isSome) →
      (formatCore maxLen l).length = l.length := by
  intro l
  induction l with
  | nil => intro _; rfl
  | cons r rest ih =>
    intro h
    obtain ⟨m, hm⟩ := Option.isSome_iff_exists.mp (h r (by simp))
    simp [formatCore, hm, ih (fun x hx => h x (by simp [hx]))]

/-- C10: for every filesystem state and every requested line count, `get_tails`
returns at least one record per monitored directory, hence a nonempty list;
consequently the guard of the `/logs` handler's "no logs found" reply branch is
always false, and the formatter renders one message per record so its
single-fallback branch is never taken. -/
theorem claim_C10_no_logs_branches_unreachable (fs : Fs) (n maxLen : Nat) :
    (∀ d ∈ targetDirs, dirRecords fs n d ≠ []) ∧
    get_tails fs n ≠ [] ∧
    ((get_tails fs n).isEmpty = false) ∧
    ((formatCore maxLen (get_tails fs n)).length = (get_tails fs n).length) ∧
    (formatCore maxLen (get_tails fs n) ≠ []) ∧
    (format_log_results_for_telegram (get_tails fs n) maxLen =
      formatCore maxLen (get_tails fs n)) := by
  have hsplit : get_tails fs n =
      dirRecords fs n "centralizador_extract" ++ dirRecords fs n "centralizador_transform"
        ++ dirRecords fs n "smsrio" ++ dirRecords fs n "vitai" := by
    simp [get_tails, targetDirs]
  have hne : get_tails fs n ≠ [] := by
    rw [hsplit]
    intro h
    rw [List.append_eq_nil, List.append_eq_nil, List.append_eq_nil] at h
    exact dirRecords_ne_nil fs n "centralizador_extract" h.1.1.1
  have hsome : ∀ r ∈ get_tails fs n, (fmtRecord maxLen r).isSome := by
    intro r hr
    rw [hsplit] at hr
    simp only [List.mem_append] at hr
    rcases hr with ((h | h) | h) | h <;> exact fmtRecord_dirRecords_isSome fs n maxLen _ r h
  have hlen := formatCore_length maxLen (get_tails fs n) hsome
  have hcne : formatCore maxLen (get_tails fs n) ≠ [] := by
    intro h
    rw [h] at hlen
    exact hne (List.length_eq_zero.mp hlen.symm)
  refine ⟨fun d _ => dirRecords_ne_nil fs n d, hne, by simp [hne], hlen, hcne, ?_⟩
  unfold format_log_results_for_telegram
  simp [hcne]

/-! ## Claim C2 -/

/-- When every transport send succeeds, the log delivery loop sends each
message in order with a pacing sleep after it, and returns normally. -/
theorem sendLogLoop_ok (env : Env) (hok : ∀ k, env.sendExn k = none) :
    ∀ (msgs : List Str) (s : S),
      sendLogLoop env msgs s =
        (⟨s.k + msgs.length, s.files,
          s.trace ++ (msgs.map (fun m => [Eff.sendText m, Eff.sleep])).flatten⟩,
         Except.ok ()) := by
  intro msgs
  induction msgs with
  | nil => intro s; simp [sendLogLoop, mret]
  | cons m rest ih =>
    intro s
    unfold sendLogLoop
    simp only [bind_def, mbind, tryE, sendText, sleepE, emit, hok]
    rw [ih]
    simp [Nat.add_comm, Nat.add_assoc, Nat.add_left_comm]

/-- A directory state in which `glob` finds no `*.log` file. -/
def noLogFiles : DirState → Prop
  | .present (_ :: _) => False
  | _ => True

/-- A directory without log files contributes exactly one record, rendered by
the formatter as a warning message naming the directory. -/
theorem dirRecords_noFiles (fs : Fs) (n maxLen : Nat) (d : String)
    (h : noLogFiles (fs.dirs d)) :
    ∃ r : LogRecord, dirRecords fs n d = [r] ∧
      fmtRecord maxLen r = some (txt "⚠️ " ++ txt d ++ txt "\n\n" ++ r.content) := by
  unfold dirRecords
  cases hd : fs.dirs d with
  | missing => exact ⟨_, rfl, by simp [fmtRecord]⟩
  | noLogsSubdir => exact ⟨_, rfl, by simp [fmtRecord]⟩
  | present files =>
    cases files with
    | nil => exact ⟨_, rfl, by simp [fmtRecord]⟩
    | cons e rest => rw [hd] at h; exact absurd h (by simp [noLogFiles])

/-- A warning message for a monitored directory is never the formatter's
fallback message (they differ at the character after the warning sign). -/
theorem warn_ne_fallback (d : String) (hd : d ∈ targetDirs) (c : Str) :
    txt "⚠️ " ++ txt d ++ txt "\n\n" ++ c ≠ noLogsFallback := by
  intro h
  have h3 : ((txt "⚠️ " ++ txt d ++ txt "\n\n") ++ c)[3]? = noLogsFallback[3]? := by
    rw [← h]
  fin_cases hd <;>
    rw [List.getElem?_append_left (by decide)] at h3 <;>
    exact absurd h3 (by decide)

/-- The summary string starts with the clipboard sign, hence is never the
handler's "no logs found" reply. -/
theorem summary_ne_nenhum (fs : Fs) :
    get_logs_summary fs ≠ txt "❌ Nenhum log encontrado." := by
  intro h
  have h0 : (get_logs_summary fs)[0]? = (txt "❌ Nenhum log encontrado.")[0]? := by rw [h]
  unfold get_logs_summary at h0
  rw [List.getElem?_append_left (by decide)] at h0
  exact absurd h0 (by decide)

/-- A warning message for a monitored directory is never the handler's
"no logs found" reply (they differ at the leading character). -/
theorem warn_ne_nenhum (d : String) (hd : d ∈ targetDirs) (c : Str) :
    txt "⚠️ " ++ txt d ++ txt "\n\n" ++ c ≠ txt "❌ Nenhum log encontrado." := by
  intro h
  have h0 : ((txt "⚠️ " ++ txt d ++ txt "\n\n") ++ c)[0]? =
      (txt "❌ Nenhum log encontrado.")[0]? := by
    rw [← h]
  fin_cases hd <;>
    rw [List.getElem?_append_left (by decide)] at h0 <;>
    exact absurd h0 (by decide)

/-- C2 (corrected): when the authorized chat sends `/logs` and no monitored
directory holds any log file, with all sends succeeding, the Router sends the
acknowledgement, the summary, and then one warning message per monitored
directory (four messages), each naming its directory; neither the handler's
"no logs found" reply nor the formatter's single fallback message is ever
sent.  (The claim's "exactly one fallback message" is refuted by the
counterexample: `get_tails` always returns one record per directory, so the
fallback branches never run.) -/
theorem claim_C2_amended (self : Monitor) (env : Env) (f : String → Bool)
    (hauth : env.chatId = self.chat_id)
    (hok : ∀ k, env.sendExn k = none)
    (hnl : ∀ d ∈ targetDirs, noLogFiles (env.fs.dirs d)) :
    ∃ c1 c2 c3 c4 : Str,
      format_log_results_for_telegram (get_tails env.fs 15) =
        [txt "⚠️ " ++ txt "centralizador_extract" ++ txt "\n\n" ++ c1,
         txt "⚠️ " ++ txt "centralizador_transform" ++ txt "\n\n" ++ c2,
         txt "⚠️ " ++ txt "smsrio" ++ txt "\n\n" ++ c3,
         txt "⚠️ " ++ txt "vitai" ++ txt "\n\n" ++ c4] ∧
      noLogsFallback ∉ format_log_results_for_telegram (get_tails env.fs 15) ∧
      Eff.sendText (txt "❌ Nenhum log encontrado.") ∉
        (handleLogs self env (initS f)).1.trace ∧
      (handleLogs self env (initS f)).1.trace =
        [Eff.logInfo "logs requested",
         Eff.sendText (txt "📋 Buscando logs dos diretórios..."),
         Eff.provider "get_logs_summary",
         Eff.sendText (get_logs_summary env.fs),
         Eff.provider "get_tails",
         Eff.sendText (txt "⚠️ " ++ txt "centralizador_extract" ++ txt "\n\n" ++ c1),
         Eff.sleep,
         Eff.sendText (txt "⚠️ " ++ txt "centralizador_transform" ++ txt "\n\n" ++ c2),
         Eff.sleep,
         Eff.sendText (txt "⚠️ " ++ txt "smsrio" ++ txt "\n\n" ++ c3),
         Eff.sleep,
         Eff.sendText (txt "⚠️ " ++ txt "vitai" ++ txt "\n\n" ++ c4),
         Eff.sleep,
         Eff.logInfo "logs sent"] := by
  obtain ⟨r1, e1, f1⟩ := dirRecords_noFiles env.fs 15 4000 "centralizador_extract"
    (hnl _ (by simp [targetDirs]))
  obtain ⟨r2, e2, f2⟩ := dirRecords_noFiles env.fs 15 4000 "centralizador_transform"
    (hnl _ (by simp [targetDirs]))
  obtain ⟨r3, e3, f3⟩ := dirRecords_noFiles env.fs 15 4000 "smsrio"
    (hnl _ (by simp [targetDirs]))
  obtain ⟨r4, e4, f4⟩ := dirRecords_noFiles env.fs 15 4000 "vitai"
    (hnl _ (by simp [targetDirs]))
  have hgt : get_tails env.fs 15 = [r1, r2, r3, r4] := by
    simp [get_tails, targetDirs, e1, e2, e3, e4]
  have hmsgs : format_log_results_for_telegram (get_tails env.fs 15) =
      [txt "⚠️ " ++ txt "centralizador_extract" ++ txt "\n\n" ++ r1.content,
       txt "⚠️ " ++ txt "centralizador_transform" ++ txt "\n\n" ++ r2.content,
       txt "⚠️ " ++ txt "smsrio" ++ txt "\n\n" ++ r3.content,
       txt "⚠️ " ++ txt "vitai" ++ txt "\n\n" ++ r4.content] := by
    rw [hgt]
    simp [format_log_results_for_telegram, formatCore, f1, f2, f3, f4]
  have hmsgsL : format_log_results_for_telegram [r1, r2, r3, r4] =
      [txt "⚠️ " ++ txt "centralizador_extract" ++ txt "\n\n" ++ r1.content,
       txt "⚠️ " ++ txt "centralizador_transform" ++ txt "\n\n" ++ r2.content,
       txt "⚠️ " ++ txt "smsrio" ++ txt "\n\n" ++ r3.content,
       txt "⚠️ " ++ txt "vitai" ++ txt "\n\n" ++ r4.content] := by
    rw [← hgt]; exact hmsgs
  refine ⟨r1.content, r2.content, r3.content, r4.content, hmsgs, ?_, ?_, ?_⟩
  · rw [hmsgs]
    intro hmem
    simp only [List.mem_cons, List.not_mem_nil, or_false] at hmem
    rcases hmem with h | h | h | h <;>
      exact warn_ne_fallback _ (by simp [targetDirs]) _ h.symm
  · have htr : (handleLogs self env (initS f)).1.trace =
        [Eff.logInfo "logs requested",
         Eff.sendText (txt "📋 Buscando logs dos diretórios..."),
         Eff.provider "get_logs_summary",
         Eff.sendText (get_logs_summary env.fs),
         Eff.provider "get_tails",
         Eff.sendText (txt "⚠️ " ++ txt "centralizador_extract" ++ txt "\n\n" ++ r1.content),
         Eff.sleep,
         Eff.sendText (txt "⚠️ " ++ txt "centralizador_transform" ++ txt "\n\n" ++ r2.content),
         Eff.sleep,
         Eff.sendText (txt "⚠️ " ++ txt "smsrio" ++ txt "\n\n" ++ r3.content),
         Eff.sleep,
         Eff.sendText (txt "⚠️ " ++ txt "vitai" ++ txt "\n\n" ++ r4.content),
         Eff.sleep,
         Eff.logInfo "logs sent"] := by
      unfold handleLogs tryE
      simp [bind_def, mbind, logI, logW, emit, initS, hauth, sendText,
        get_logs_summaryM, get_tailsM, hok, hgt, hmsgs, hmsgsL, sendLogLoop_ok env hok]
    rw [htr]
    intro hmem
    simp only [List.mem_cons, List.not_mem_nil, or_false] at hmem
    rcases hmem with h | h | h | h | h | h | h | h | h | h | h | h | h | h <;>
      first
        | exact absurd h (by decide)
        | exact summary_ne_nenhum env.fs (Eff.sendText.inj h).symm
        | exact warn_ne_nenhum _ (by simp [targetDirs]) _ (Eff.sendText.inj h).symm
  · unfold handleLogs tryE
    simp [bind_def, mbind, logI, logW, emit, initS, hauth, sendText,
      get_logs_summaryM, get_tailsM, hok, hgt, hmsgs, hmsgsL, sendLogLoop_ok env hok]

/-- Concrete authorized `/logs` environment with zero log files anywhere:
all four monitored directories are missing; all sends succeed. -/
def envC2 : Env :=
  { chatId := "123", text := txt "",
    sendExn := fun _ => none, screenshotRes := none, wslRes := none,
    wslFileExists := false, zellijRes := ⟨none, none⟩,
    statusRes := Except.ok (txt "ok"), trigExn := fun _ => none,
    fs := ⟨txt "/base", fun _ => DirState.missing⟩ }

set_option maxHeartbeats 2000000 in
/-- C2 counterexample: with zero log files in every monitored directory the
Router does not send "one summary message followed by exactly one fallback
message and nothing else": it sends six text messages (acknowledgement,
summary, and one warning per monitored directory), and no sent message is the
formatter's fallback nor the handler's "no logs found" reply. -/
theorem claim_C2_counterexample :
    (((handleLogs monitorA envC2 (initS (fun _ => false))).1.trace.filter
        isSendEff).length = 6) ∧
    Eff.sendText noLogsFallback ∉
      (handleLogs monitorA envC2 (initS (fun _ => false))).1.trace ∧
    Eff.sendText (txt "❌ Nenhum log encontrado.") ∉
      (handleLogs monitorA envC2 (initS (fun _ => false))).1.trace := by
  refine ⟨?_, ?_, ?_⟩ <;> decide

/-- Witness for the amended C2 at the concrete all-directories-missing
filesystem. -/
theorem claim_C2_witness :
    ∃ c1 c2 c3 c4 : Str,
      format_log_results_for_telegram (get_tails envC2.fs 15) =
        [txt "⚠️ " ++ txt "centralizador_extract" ++ txt "\n\n" ++ c1,
         txt "⚠️ " ++ txt "centralizador_transform" ++ txt "\n\n" ++ c2,
         txt "⚠️ " ++ txt "smsrio" ++ txt "\n\n" ++ c3,
         txt "⚠️ " ++ txt "vitai" ++ txt "\n\n" ++ c4] ∧
      noLogsFallback ∉ format_log_results_for_telegram (get_tails envC2.fs 15) ∧
      Eff.sendText (txt "❌ Nenhum log encontrado.") ∉
        (handleLogs monitorA envC2 (initS (fun _ => false))).1.trace ∧
      (handleLogs monitorA envC2 (initS (fun _ => false))).1.trace =
        [Eff.logInfo "logs requested",
         Eff.sendText (txt "📋 Buscando logs dos diretórios..."),
         Eff.provider "get_logs_summary",
         Eff.sendText (get_logs_summary envC2.fs),
         Eff.provider "get_tails",
         Eff.sendText (txt "⚠️ " ++ txt "centralizador_extract" ++ txt "\n\n" ++ c1),
         Eff.sleep,
         Eff.sendText (txt "⚠️ " ++ txt "centralizador_transform" ++ txt "\n\n" ++ c2),
         Eff.sleep,
         Eff.sendText (txt "⚠️ " ++ txt "smsrio" ++ txt "\n\n" ++ c3),
         Eff.sleep,
         Eff.sendText (txt "⚠️ " ++ txt "vitai" ++ txt "\n\n" ++ c4),
         Eff.sleep,
         Eff.logInfo "logs sent"] :=
  claim_C2_amended monitorA envC2 (fun _ => false) rfl (fun _ => rfl)
    (fun d _ => by simp [envC2, noLogFiles])

/-! ## Claim C6 -/

/-- C6 (corrected): behaviour of one iteration of the log delivery loop, for
every state of the send transport.  A successful send is followed by a pacing
sleep and the loop continues; a failed send is retried exactly once in
truncated form; if the retry succeeds the loop continues; if the retry also
fails a critical-error notice is attempted, after which the loop continues
only when that notice was delivered — if the notice send also fails, the
remainder of the batch is aborted with the exception propagating to the
handler-level except.  (The claim's unconditional "continues with the next
message whether or not the retry succeeds" is refuted by the
counterexample.) -/
theorem claim_C6_batch_retry (env : Env) (m : Str) (rest : List Str) (s : S)
    (e1 e2 : String) :
    (env.sendExn s.k = none →
      sendLogLoop env (m :: rest) s =
        sendLogLoop env rest
          ⟨s.k + 1, s.files, s.trace ++ [Eff.sendText m, Eff.sleep]⟩) ∧
    (env.sendExn s.k = some e1 → env.sendExn (s.k + 1) = none →
      sendLogLoop env (m :: rest) s =
        sendLogLoop env rest
          ⟨s.k + 2, s.files,
           s.trace ++ [Eff.sendText m, Eff.sendText (retryMsg e1 m)]⟩) ∧
    (env.sendExn s.k = some e1 → env.sendExn (s.k + 1) = some e2 →
        env.sendExn (s.k + 2) = none →
      sendLogLoop env (m :: rest) s =
        sendLogLoop env rest
          ⟨s.k + 3, s.files,
           s.trace ++ [Eff.sendText m, Eff.sendText (retryMsg e1 m),
             Eff.sendText (critMsg e1)]⟩) ∧
    (∀ e3, env.sendExn s.k = some e1 → env.sendExn (s.k + 1) = some e2 →
        env.sendExn (s.k + 2) = some e3 →
      sendLogLoop env (m :: rest) s =
        (⟨s.k + 3, s.files,
          s.trace ++ [Eff.sendText m, Eff.sendText (retryMsg e1 m),
            Eff.sendText (critMsg e1)]⟩, Except.error e3)) := by
  refine ⟨?_, ?_, ?_, ?_⟩
  · intro h0
    conv_lhs => rw [sendLogLoop]
    simp [bind_def, mbind, tryE, sendText, sleepE, emit, h0]
  · intro h0 h1
    conv_lhs => rw [sendLogLoop]
    simp [bind_def, mbind, tryE, sendText, sleepE, emit, h0, h1]
  · intro h0 h1 h2
    conv_lhs => rw [sendLogLoop]
    simp [bind_def, mbind, tryE, sendText, sleepE, emit, h0, h1, h2]
  · intro e3 h0 h1 h2
    conv_lhs => rw [sendLogLoop]
    simp [bind_def, mbind, tryE, sendText, sleepE, emit, h0, h1, h2]

/-- Environment whose transport rejects every send. -/
def envC6 : Env :=
  { chatId := "123", text := txt "",
    sendExn := fun _ => some "boom", screenshotRes := none, wslRes := none,
    wslFileExists := false, zellijRes := ⟨none, none⟩,
    statusRes := Except.ok (txt "ok"), trigExn := fun _ => none,
    fs := ⟨txt "/base", fun _ => DirState.missing⟩ }

/-- C6 counterexample: in a two-message batch where the first message's send,
its truncated retry and the critical-error notice all fail, the loop does not
continue with the next message: the second message is never attempted (the
loop aborts with the exception), refuting "whether or not the retry succeeds,
it then continues with the next message of the batch". -/
theorem claim_C6_counterexample :
    (sendLogLoop envC6 [txt "A", txt "B"] (initS (fun _ => false))).1.trace =
      [Eff.sendText (txt "A"), Eff.sendText (retryMsg "boom" (txt "A")),
       Eff.sendText (critMsg "boom")] ∧
    Eff.sendText (txt "B") ∉
      (sendLogLoop envC6 [txt "A", txt "B"] (initS (fun _ => false))).1.trace ∧
    (sendLogLoop envC6 [txt "A", txt "B"] (initS (fun _ => false))).2 =
      Except.error "boom" := by
  refine ⟨by decide, by decide, rfl⟩

/-- Witness for the corrected C6: a concrete iteration in which the first
send fails and the truncated retry succeeds, after which the loop proceeds to
the rest of the batch. -/
def envC6b : Env :=
  { chatId := "123", text := txt "",
    sendExn := fun k => if k = 0 then some "boom" else none,
    screenshotRes := none, wslRes := none,
    wslFileExists := false, zellijRes := ⟨none, none⟩,
    statusRes := Except.ok (txt "ok"), trigExn := fun _ => none,
    fs := ⟨txt "/base", fun _ => DirState.missing⟩ }

theorem claim_C6_witness :
    sendLogLoop envC6b [txt "A", txt "B"] (initS (fun _ => false)) =
      sendLogLoop envC6b [txt "B"]
        ⟨2, (initS (fun _ => false)).files,
         [Eff.sendText (txt "A"), Eff.sendText (retryMsg "boom" (txt "A"))]⟩ :=
  ((claim_C6_batch_retry envC6b (txt "A") [txt "B"] (initS (fun _ => false))
      "boom" "x").2.1 rfl rfl)

/-! ## Claim C3 -/

/-- Triple-backtick replacement on a backtick-free text is the identity. -/
theorem replaceTicks3_no_tick : ∀ l : Str, tickChar ∉ l → replaceTicks3 l = l := by
  intro l
  induction l with
  | nil => intro _; simp [replaceTicks3]
  | cons c rest ih =>
    intro h
    rw [replaceTicks3, if_neg]
    · rw [ih (fun hm => h (List.mem_cons_of_mem c hm))]
    · rintro ⟨hc, -⟩
      exact h (hc ▸ List.mem_cons_self c rest)

/-- Triple-backtick replacement preserves length. -/
theorem length_replaceTicks3 (l : Str) : (replaceTicks3 l).length = l.length := by
  induction l using replaceTicks3.induct with
  | case1 => simp [replaceTicks3]
  | case2 c rest h ih =>
    have h2 : 2 ≤ rest.length := by
      have := congrArg List.length h.2
      simp [List.length_take] at this
      omega
    rw [replaceTicks3, if_pos h]
    simp [ih]
    omega
  | case3 c rest h ih =>
    rw [replaceTicks3, if_neg h]
    simp [ih]

/-- Single-backtick replacement preserves length. -/
theorem length_replaceTick1 (l : Str) : (replaceTick1 l).length = l.length := by
  simp [replaceTick1]

/-- Single-backtick replacement on a backtick-free text is the identity. -/
theorem replaceTick1_no_tick (l : Str) (h : tickChar ∉ l) : replaceTick1 l = l := by
  unfold replaceTick1
  induction l with
  | nil => rfl
  | cons c rest ih =>
    simp only [List.mem_cons, not_or] at h
    rw [List.map_cons, if_neg (fun hc => h.1 hc.symm), ih h.2]

/-- Triple-backtick replacement of a text ending in a backtick-free suffix
keeps that suffix: a replaced triple never overlaps the suffix. -/
theorem replaceTicks3_append_no_tick (ys : Str) (hys : tickChar ∉ ys) :
    ∀ (n : Nat) (xs : Str), xs.length ≤ n →
      ∃ p, replaceTicks3 (xs ++ ys) = p ++ ys := by
  intro n
  induction n with
  | zero =>
    intro xs hx
    rw [List.length_eq_zero.mp (Nat.le_zero.mp hx)]
    exact ⟨[], by simp [replaceTicks3_no_tick ys hys]⟩
  | succ n ih =>
    intro xs hx
    match xs with
    | [] => exact ⟨[], by simp [replaceTicks3_no_tick ys hys]⟩
    | c :: rest =>
      rw [List.cons_append, replaceTicks3]
      by_cases hc : c = tickChar ∧ (rest ++ ys).take 2 = [tickChar, tickChar]
      · rw [if_pos hc]
        match rest, hc.2 with
        | [], h2 =>
          exfalso
          apply hys
          apply List.take_subset 2 ys
          simp only [List.nil_append] at h2
          rw [h2]; simp
        | [a], h2 =>
          exfalso
          apply hys
          simp only [List.cons_append, List.nil_append, List.take_succ_cons,
            List.cons.injEq] at h2
          apply List.take_subset 1 ys
          rw [h2.2]; simp
        | a :: b :: r, h2 =>
          simp only [List.cons_append, List.take_succ_cons, List.take_zero,
            List.cons.injEq, and_true] at h2
          have hlen : r.length ≤ n := by
            simp only [List.length_cons] at hx; omega
          obtain ⟨p, hp⟩ := ih r hlen
          refine ⟨'-' :: '-' :: '-' :: p, ?_⟩
          have hdrop : ((a :: b :: r) ++ ys).drop 2 = r ++ ys := by simp
          rw [show a :: b :: r ++ ys = (a :: b :: r) ++ ys from rfl, hdrop, hp]
          simp
      · rw [if_neg hc]
        have hlen : rest.length ≤ n := by
          simp only [List.length_cons] at hx; omega
        obtain ⟨p, hp⟩ := ih rest hlen
        exact ⟨c :: p, by rw [hp]; simp⟩

/-- The truncation marker appended by the formatter. -/
def truncMarker : Str := txt "\n... (truncado)"

/-- C3 (amended): for a success record whose header fits within the ceiling
(header length plus the 20-character safety margin at most the ceiling — true
of every record the code builds, where headers are far below 4000 characters)
and whose tail content is longer than the computed available space, the
formatted message is at most the ceiling long and ends with the truncation
marker; and the formatter dispatches the record to exactly this message.
(Without the header-fits proviso the claim fails: a header longer than the
ceiling makes the available space negative and the message longer than the
ceiling, see the counterexample.) -/
theorem claim_C3_truncation (r : LogRecord) (maxLen : Nat)
    (hs : r.status = "success")
    (hhdr : (successHeader r).length + 20 ≤ maxLen)
    (hlong : ((maxLen : Int) - (successHeader r).length - 20) < (r.content.length : Int)) :
    (fmtSuccess r maxLen).length ≤ maxLen ∧
    (∃ pre, fmtSuccess r maxLen = pre ++ truncMarker) ∧
    fmtRecord maxLen r = some (fmtSuccess r maxLen) := by
  have hmark : tickChar ∉ truncMarker := by decide
  have havail : (0 : Int) ≤ (maxLen : Int) - (successHeader r).length - 20 := by
    omega
  refine ⟨?_, ?_, by simp [fmtRecord, hs]⟩
  · simp only [fmtSuccess]
    rw [if_pos hlong]
    simp only [List.length_append, length_replaceTick1, length_replaceTicks3,
      pySlicePrefix, if_pos havail, List.length_take]
    have htn : ((maxLen : Int) - (successHeader r).length - 20).toNat =
        maxLen - (successHeader r).length - 20 := by omega
    rw [htn]
    have hcl : maxLen - (successHeader r).length - 20 ≤ r.content.length := by
      omega
    simp only [Nat.min_def]
    rw [if_pos hcl]
    simp only [truncMarker, txt, String.length_data]
    simp only [List.length_cons, List.length_nil]
    omega
  · simp only [fmtSuccess]
    rw [if_pos hlong]
    obtain ⟨p, hp⟩ := replaceTicks3_append_no_tick truncMarker hmark
      (pySlicePrefix r.content ((maxLen : Int) - (successHeader r).length - 20)).length
      (pySlicePrefix r.content ((maxLen : Int) - (successHeader r).length - 20))
      le_rfl
    refine ⟨successHeader r ++ replaceTick1 p, ?_⟩
    have hmt : txt "\n... (truncado)" = truncMarker := rfl
    rw [hmt, hp]
    unfold replaceTick1
    rw [List.map_append,
      show List.map (fun c => if c = tickChar then quoteChar else c) truncMarker =
        truncMarker from replaceTick1_no_tick truncMarker hmark]
    simp

/-- A success record with a pathologically long directory name: its header
alone exceeds the 4000-character ceiling. -/
def rBadHeader : LogRecord :=
  { directory := List.replicate 4000 'd', status := "success",
    fileName := txt "f.log", hasFileName := true,
    modifiedTime := txt "2024-01-01 00:00:00", fileSize := 100,
    content := List.replicate 100 'x', lineCount := 1 }

/-- C3 counterexample: the claim as stated (for every success record) fails.
For this record the tail content is longer than the computed available space
(which is negative), yet the formatted message is longer than the 4000
ceiling: the truncated content plus marker is appended to an oversized header
that is emitted in full. -/
theorem claim_C3_counterexample :
    (((4000 : Int) - (successHeader rBadHeader).length - 20) <
      (rBadHeader.content.length : Int)) ∧
    4000 < (fmtSuccess rBadHeader 4000).length := by
  have hh : (successHeader rBadHeader).length = 4118 := by
    simp only [successHeader, rBadHeader, List.length_append, List.length_replicate]
    decide
  have hc : rBadHeader.content.length = 100 := by
    simp only [rBadHeader, List.length_replicate]
  have hcond : ((4000 : Int) - (successHeader rBadHeader).length - 20) <
      (rBadHeader.content.length : Int) := by
    rw [hh, hc]; decide
  refine ⟨hcond, ?_⟩
  simp only [fmtSuccess, Nat.cast_ofNat]
  rw [if_pos hcond]
  simp only [List.length_append, length_replaceTick1, length_replaceTicks3]
  have hm : (txt "\n... (truncado)").length = 15 := by decide
  have hsl : (pySlicePrefix rBadHeader.content
      ((4000 : Int) - (successHeader rBadHeader).length - 20)).length ≤ 100 := by
    unfold pySlicePrefix
    rw [hh, hc]
    split <;> simp
  omega

/-- Scenario E record: a 6000-character tail. -/
def rScenarioE : LogRecord :=
  { directory := txt "centralizador_extract", status := "success",
    fileName := txt "app.log", hasFileName := true,
    modifiedTime := txt "2024-01-01 00:00:00", fileSize := 6000,
    content := List.replicate 6000 'a', lineCount := 15 }

set_option maxRecDepth 10000 in
/-- Scenario E witness for the amended C3: a 6000-character tail with a 4000
ceiling yields a message of length at most 4000 that ends with the truncation
marker. -/
theorem claim_C3_witness :
    (fmtSuccess rScenarioE 4000).length ≤ 4000 ∧
    (∃ pre, fmtSuccess rScenarioE 4000 = pre ++ truncMarker) ∧
    fmtRecord 4000 rScenarioE = some (fmtSuccess rScenarioE 4000) :=
  claim_C3_truncation rScenarioE 4000 rfl (by decide)
    (by
      have hc : (rScenarioE.content.length : Int) = 6000 := by
        simp only [rScenarioE, List.length_replicate, Nat.cast_ofNat]
      rw [hc]
      have hh : (successHeader rScenarioE).length = 143 := by decide
      rw [hh]
      decide)

/-! ## Claim C8 -/

/-- Modelled from the spec: "the last N lines of a log file" — the claim-side
reference definition the code is compared against.  The file's lines (with
their endings kept) are taken from the end: the last `n` of them, or the whole
file when it has fewer than `n` lines. -/
def lastLinesSpec (content : Str) (n : Nat) : Str :=
  let ls := splitKeepEnds content
  ((ls.drop (ls.length - n)).flatten)

/-- Reassembling the kept-ends line split yields the original text. -/
theorem flatten_skeGo : ∀ (l cur : Str), (skeGo cur l).flatten = cur.reverse ++ l := by
  intro l
  induction l with
  | nil =>
    intro cur
    by_cases h : cur = [] <;> simp [skeGo, h]
  | cons c rest ih =>
    intro cur
    by_cases h : c = '\n'
    · simp [skeGo, h, ih]
    · simp [skeGo, h, ih]

theorem flatten_splitKeepEnds (l : Str) : (splitKeepEnds l).flatten = l := by
  simpa using flatten_skeGo l []

/-- C8 (amended): for every file smaller than 10000 bytes and every requested
line count `n ≥ 1`, the tail computed by `_get_file_tail` equals the last `n`
lines of the file; when the file has at most `n` lines it is the whole file;
and the tail stored in a success LogRecord is exactly `_get_file_tail` of the
file's content.  (The claim's "regardless of the file's size or average line
length" fails for files of 10000 bytes or more, whose tail is taken from a
100-bytes-per-line window — see the counterexample, which also shows the
`n = 0` Python slice quirk forcing `n ≥ 1`.) -/
theorem claim_C8_small_file_tail (content : Str) (n : Nat)
    (hn : 1 ≤ n) (hsmall : content.length < 10000) :
    (_get_file_tail content n = lastLinesSpec content n) ∧
    ((splitKeepEnds content).length ≤ n → _get_file_tail content n = content) ∧
    (∀ (fs : Fs) (d : String) (e : FileEntry), e.statError = none →
      (fileRecord fs d n e).content = _get_file_tail e.content n) := by
  have heq : _get_file_tail content n = lastLinesSpec content n := by
    unfold _get_file_tail lastLinesSpec pySliceLast
    rw [if_pos hsmall, if_neg (by omega)]
  refine ⟨heq, ?_, ?_⟩
  · intro hfew
    rw [heq]
    simp only [lastLinesSpec]
    rw [Nat.sub_eq_zero_of_le hfew, List.drop_zero, flatten_splitKeepEnds]
  · intro fs d e he
    simp [fileRecord, he]

/-- A 10000-byte file: a 9800-character first line, then a newline, then a
199-character last line. -/
def bigFileC8 : Str := List.replicate 9800 'a' ++ '\n' :: List.replicate 199 'b'

/-- Splitting a newline-free text keeps it as one (possibly empty) piece. -/
theorem slGo_no_newline : ∀ (l cur : Str), '\n' ∉ l →
    slGo cur l = if cur.reverse ++ l = [] then [] else [cur.reverse ++ l] := by
  intro l
  induction l with
  | nil =>
    intro cur _
    by_cases h : cur = [] <;> simp [slGo, h]
  | cons c rest ih =>
    intro cur hmem
    simp only [List.mem_cons, not_or] at hmem
    rw [slGo, if_neg (fun hc => hmem.1 hc.symm), ih _ hmem.2]
    simp

/-- Kept-ends splitting of a newline-free text. -/
theorem skeGo_no_newline : ∀ (l cur : Str), '\n' ∉ l →
    skeGo cur l = if cur.reverse ++ l = [] then [] else [cur.reverse ++ l] := by
  intro l
  induction l with
  | nil =>
    intro cur _
    by_cases h : cur = [] <;> simp [skeGo, h]
  | cons c rest ih =>
    intro cur hmem
    simp only [List.mem_cons, not_or] at hmem
    rw [skeGo, if_neg (fun hc => hmem.1 hc.symm), ih _ hmem.2]
    simp

/-- Kept-ends splitting consumes a newline-free prefix into the accumulator. -/
theorem skeGo_consume : ∀ (l cur rest : Str), '\n' ∉ l →
    skeGo cur (l ++ rest) = skeGo (l.reverse ++ cur) rest := by
  intro l
  induction l with
  | nil => intro cur rest _; simp
  | cons c l' ih =>
    intro cur rest hmem
    simp only [List.mem_cons, not_or] at hmem
    rw [List.cons_append, skeGo, if_neg (fun hc => hmem.1 hc.symm), ih _ _ hmem.2]
    simp

/-- C8 counterexample: the claim as stated fails on the code in two ways.
For the 10000-byte file whose last line has 199 characters, the computed tail
for `n = 1` is only the final 100-byte window (the estimated-position
heuristic undershoots for lines longer than 100 bytes on average), not the
last line; and for `n = 0` on a small file, the Python slice `lines[-0:]`
yields the whole file rather than zero lines. -/
theorem claim_C8_counterexample :
    (_get_file_tail bigFileC8 1 = List.replicate 100 'b') ∧
    (lastLinesSpec bigFileC8 1 = List.replicate 199 'b') ∧
    (_get_file_tail bigFileC8 1 ≠ lastLinesSpec bigFileC8 1) ∧
    (_get_file_tail (txt "a\nb") 0 ≠ lastLinesSpec (txt "a\nb") 0) := by
  have hlen : bigFileC8.length = 10000 := by
    simp [bigFileC8, -List.reduceReplicate]
  have hwindow : bigFileC8.drop 9900 = List.replicate 100 'b' := by
    unfold bigFileC8
    rw [List.drop_append_eq_append_drop]
    simp [-List.reduceReplicate, List.drop_replicate]
  have hleft : _get_file_tail bigFileC8 1 = List.replicate 100 'b' := by
    simp only [_get_file_tail]
    rw [if_neg (by omega), hlen]
    norm_num
    rw [hwindow]
    unfold splitLines
    rw [slGo_no_newline _ _ (by simp [-List.reduceReplicate]),
      if_neg (by simp [-List.reduceReplicate])]
    simp [-List.reduceReplicate, pySliceLast, List.intercalate]
  have hske : splitKeepEnds bigFileC8 =
      [List.replicate 9800 'a' ++ ['\n'], List.replicate 199 'b'] := by
    unfold splitKeepEnds bigFileC8
    rw [skeGo_consume _ _ _ (by simp [-List.reduceReplicate]), skeGo, if_pos rfl,
      skeGo_no_newline _ _ (by simp [-List.reduceReplicate]),
      if_neg (by simp [-List.reduceReplicate])]
    simp [-List.reduceReplicate]
  have hright : lastLinesSpec bigFileC8 1 = List.replicate 199 'b' := by
    simp only [lastLinesSpec]
    rw [hske]
    simp [-List.reduceReplicate]
  refine ⟨hleft, hright, ?_, by decide⟩
  rw [hleft, hright]
  intro h
  have := congrArg List.length h
  simp [-List.reduceReplicate] at this

/-- Witness for the amended C8 on a concrete three-line file. -/
theorem claim_C8_witness :
    (_get_file_tail (txt "l1\nl2\nl3") 2 = lastLinesSpec (txt "l1\nl2\nl3") 2) ∧
    ((splitKeepEnds (txt "l1\nl2\nl3")).length ≤ 2 →
      _get_file_tail (txt "l1\nl2\nl3") 2 = txt "l1\nl2\nl3") ∧
    (∀ (fs : Fs) (d : String) (e : FileEntry), e.statError = none →
      (fileRecord fs d 2 e).content = _get_file_tail e.content 2) :=
  claim_C8_small_file_tail (txt "l1\nl2\nl3") 2 (by decide) (by decide)

/-! ## Claim C9 -/

/-- Accuracy of round-half-to-even: the rounded value differs from the exact
quotient by at most half a unit. -/
theorem rhe_err (a b : Nat) (hb : 0 < b) :
    -(b : Int) ≤ 2 * ((b : Int) * rhe a b - a) ∧
      2 * ((b : Int) * rhe a b - a) ≤ b := by
  obtain ⟨q, r, hr, ha⟩ : ∃ q r, r < b ∧ a = b * q + r :=
    ⟨a / b, a % b, Nat.mod_lt a hb, (Nat.div_add_mod a b).symm⟩
  subst ha
  have hq : (b * q + r) / b = q := by
    rw [Nat.mul_add_div hb, Nat.div_eq_of_lt hr, Nat.add_zero]
  have hrm : (b * q + r) % b = r := by
    rw [Nat.mul_add_mod, Nat.mod_eq_of_lt hr]
  have rhe_eq : rhe (b * q + r) b =
      if 2 * r < b then q
      else if b < 2 * r then q + 1
      else if q % 2 = 0 then q else q + 1 := by
    simp only [rhe]
    rw [hq, hrm]
  rw [rhe_eq]
  split
  · constructor <;> push_cast <;> omega
  · split
    · constructor <;> push_cast <;>
        first
          | omega
          | (simp only [mul_add, mul_one]; omega)
    · split <;> constructor <;> push_cast <;>
        first
          | omega
          | (simp only [mul_add, mul_one]; omega)

/-- C9: the human-readable size formatter follows the four claimed ranges:
below 1024 it renders "<n> B"; in the KB/MB/GB ranges it renders the value
divided by 1024, 1024² or 1024³ with exactly one decimal digit — made precise
as: the rendered digits are `m/10.m%10` for an integer `m` with
`|m/10 − n/divisor| ≤ 1/20` (the correctly rounded one-decimal value). -/
theorem claim_C9_format_file_size (n : Nat) :
    (n < 1024 → _format_file_size n = natStr n ++ txt " B") ∧
    (1024 ≤ n → n < 1024 ^ 2 → ∃ m : Nat,
      _format_file_size n = dec1 m ++ txt " KB" ∧
      -(1024 : Int) ≤ 2 * ((1024 : Int) * m - 10 * n) ∧
      2 * ((1024 : Int) * m - 10 * n) ≤ 1024) ∧
    (1024 ^ 2 ≤ n → n < 1024 ^ 3 → ∃ m : Nat,
      _format_file_size n = dec1 m ++ txt " MB" ∧
      -(1048576 : Int) ≤ 2 * ((1048576 : Int) * m - 10 * n) ∧
      2 * ((1048576 : Int) * m - 10 * n) ≤ 1048576) ∧
    (1024 ^ 3 ≤ n → ∃ m : Nat,
      _format_file_size n = dec1 m ++ txt " GB" ∧
      -(1073741824 : Int) ≤ 2 * ((1073741824 : Int) * m - 10 * n) ∧
      2 * ((1073741824 : Int) * m - 10 * n) ≤ 1073741824) := by
  refine ⟨?_, ?_, ?_, ?_⟩
  · intro h
    simp [_format_file_size, h]
  · intro h1 h2
    refine ⟨rhe (10 * n) 1024, ?_, ?_, ?_⟩
    · unfold _format_file_size
      rw [if_neg (by omega), if_pos (by norm_num; omega)]
    · have := (rhe_err (10 * n) 1024 (by norm_num)).1
      push_cast at this ⊢
      omega
    · have := (rhe_err (10 * n) 1024 (by norm_num)).2
      push_cast at this ⊢
      omega
  · intro h1 h2
    refine ⟨rhe (10 * n) (1024 ^ 2), ?_, ?_, ?_⟩
    · unfold _format_file_size
      rw [if_neg (by norm_num; omega), if_neg (by norm_num; omega),
        if_pos (by norm_num; omega)]
    · have := (rhe_err (10 * n) (1024 ^ 2) (by norm_num)).1
      norm_num at this ⊢
      omega
    · have := (rhe_err (10 * n) (1024 ^ 2) (by norm_num)).2
      norm_num at this ⊢
      omega
  · intro h1
    refine ⟨rhe (10 * n) (1024 ^ 3), ?_, ?_, ?_⟩
    · unfold _format_file_size
      rw [if_neg (by norm_num; omega), if_neg (by norm_num; omega),
        if_neg (by norm_num; omega)]
    · have := (rhe_err (10 * n) (1024 ^ 3) (by norm_num)).1
      norm_num at this ⊢
      omega
    · have := (rhe_err (10 * n) (1024 ^ 3) (by norm_num)).2
      norm_num at this ⊢
      omega

/-- Witness for C9 in the KB range: 1536 bytes render as "1.5 KB". -/
theorem claim_C9_witness :
    (∃ m : Nat,
      _format_file_size 1536 = dec1 m ++ txt " KB" ∧
      -(1024 : Int) ≤ 2 * ((1024 : Int) * m - 10 * 1536) ∧
      2 * ((1024 : Int) * m - 10 * 1536) ≤ 1024) ∧
    _format_file_size 1536 = txt "1.5 KB" :=
  ⟨(claim_C9_format_file_size 1536).2.1 (by norm_num) (by norm_num), by decide⟩
